import Mathlib

/-!
Verification of the galaxykit API client (`galaxykit/client.py`).

The development shallowly embeds the client's data model and operations:
JSON values with a serializer modelling `simplejson.dumps` (default
separators, ASCII data, integer numbers) and a parser modelling
`simplejson.loads` restricted to the same fragment; UTF-8 encoding of
strings modelling `str.encode('utf8')`; URL splitting and joining
modelling `urllib.parse.urlparse` / `urljoin` restricted to
scheme/netloc/path URLs (no query or fragment), which is all the client
uses; Python `dict` update semantics for header mappings; and the
`GalaxyClient` class itself, with the network modelled as a function from
the issued request to the remote response and the observable effects
(requests issued, lines printed, the returned value or exception made
explicit).
-/

namespace Galaxykit

/-- JSON values: the model covers null, booleans, integer numbers, strings,
arrays and objects (objects as association lists, preserving insertion
order like Python dicts). -/
inductive Json where
  | null : Json
  | bool (b : Bool) : Json
  | num (n : Int) : Json
  | str (s : String) : Json
  | arr (xs : List Json) : Json
  | obj (kvs : List (String × Json)) : Json

/-- Escape of one character inside a JSON string literal (the escapes used
by the data this client handles). -/
def jsonEscapeChar (c : Char) : String :=
  if c = '"' then "\\\""
  else if c = '\\' then "\\\\"
  else if c = '\n' then "\\n"
  else if c = '\t' then "\\t"
  else if c = '\r' then "\\r"
  else String.singleton c

/-- A JSON string literal: quotes around the escaped characters. -/
def jsonQuote (s : String) : String :=
  "\"" ++ String.join (s.toList.map jsonEscapeChar) ++ "\""

mutual

/-- Model of `simplejson.dumps` with its default separators
`(", ", ": ")`, as `client.py` imports and calls it (`dumps(body)`). -/
def Json.dumps : Json → String
  | .null => "null"
  | .bool true => "true"
  | .bool false => "false"
  | .num n => toString n
  | .str s => jsonQuote s
  | .arr xs => "[" ++ Json.dumpsElems xs ++ "]"
  | .obj kvs => "\x7b" ++ Json.dumpsMembers kvs ++ "\x7d"

/-- Comma-separated serialization of array elements. -/
def Json.dumpsElems : List Json → String
  | [] => ""
  | [x] => Json.dumps x
  | x :: y :: rest => Json.dumps x ++ ", " ++ Json.dumpsElems (y :: rest)

/-- Comma-separated serialization of object members. -/
def Json.dumpsMembers : List (String × Json) → String
  | [] => ""
  | [(k, v)] => jsonQuote k ++ ": " ++ Json.dumps v
  | (k, v) :: m :: rest =>
      jsonQuote k ++ ": " ++ Json.dumps v ++ ", " ++ Json.dumpsMembers (m :: rest)

end

/-- JSON whitespace skipping. -/
def skipWs : List Char → List Char
  | [] => []
  | c :: cs => if c = ' ' ∨ c = '\n' ∨ c = '\t' ∨ c = '\r' then skipWs cs else c :: cs

/-- Decoding of one escape character after a backslash in a JSON string
literal. -/
def jsonUnescape : Char → Option String
  | '"' => some "\""
  | '\\' => some "\\"
  | '/' => some "/"
  | 'n' => some "\n"
  | 't' => some "\t"
  | 'r' => some "\r"
  | _ => none

/-- Body of a JSON string literal after the opening quote: the decoded
string and the characters after the closing quote. -/
def parseStringBody : List Char → Option (String × List Char)
  | [] => none
  | '"' :: rest => some ("", rest)
  | '\\' :: e :: rest =>
      (jsonUnescape e).bind fun esc =>
        (parseStringBody rest).map fun p => (esc ++ p.1, p.2)
  | c :: rest => (parseStringBody rest).map fun p => (String.singleton c ++ p.1, p.2)

/-- Digits of a decimal number: the accumulated value and the rest. -/
def parseDigitsAux : Nat → List Char → Nat × List Char
  | acc, [] => (acc, [])
  | acc, c :: cs =>
      if c.isDigit then parseDigitsAux (acc * 10 + (c.toNat - '0'.toNat)) cs
      else (acc, c :: cs)

/-- At least one decimal digit, or failure. -/
def parseDigits : List Char → Option (Nat × List Char)
  | [] => none
  | c :: cs =>
      if c.isDigit then some (parseDigitsAux (c.toNat - '0'.toNat) cs)
      else none

mutual

/-- One JSON value (fuel-bounded recursive descent); `fuel` dominates the
nesting depth, which the input's length bounds. -/
def parseVal : Nat → List Char → Option (Json × List Char)
  | 0, _ => none
  | Nat.succ fuel, cs =>
      match skipWs cs with
      | 'n' :: 'u' :: 'l' :: 'l' :: rest => some (.null, rest)
      | 't' :: 'r' :: 'u' :: 'e' :: rest => some (.bool true, rest)
      | 'f' :: 'a' :: 'l' :: 's' :: 'e' :: rest => some (.bool false, rest)
      | '"' :: rest => (parseStringBody rest).map fun p => (.str p.1, p.2)
      | '[' :: rest =>
          (match skipWs rest with
            | ']' :: rest2 => some (.arr [], rest2)
            | rest2 => (parseElems fuel rest2).map fun p => (.arr p.1, p.2))
      | '\x7b' :: rest =>
          (match skipWs rest with
            | '\x7d' :: rest2 => some (.obj [], rest2)
            | rest2 => (parseMembers fuel rest2).map fun p => (.obj p.1, p.2))
      | '-' :: rest => (parseDigits rest).map fun p => (.num (-(p.1 : Int)), p.2)
      | c :: rest =>
          if c.isDigit then (parseDigits (c :: rest)).map fun p => (.num (p.1 : Int), p.2)
          else none
      | [] => none

/-- Elements of a non-empty JSON array, up to and past the closing bracket. -/
def parseElems : Nat → List Char → Option (List Json × List Char)
  | 0, _ => none
  | Nat.succ fuel, cs =>
      (parseVal fuel cs).bind fun p =>
        match skipWs p.2 with
        | ',' :: rest => (parseElems fuel rest).map fun q => (p.1 :: q.1, q.2)
        | ']' :: rest => some ([p.1], rest)
        | _ => none

/-- Members of a non-empty JSON object, up to and past the closing brace. -/
def parseMembers : Nat → List Char → Option (List (String × Json) × List Char)
  | 0, _ => none
  | Nat.succ fuel, cs =>
      match skipWs cs with
      | '"' :: rest =>
          (parseStringBody rest).bind fun pk =>
            match skipWs pk.2 with
            | ':' :: rest2 =>
                (parseVal fuel rest2).bind fun pv =>
                  match skipWs pv.2 with
                  | ',' :: rest3 =>
                      (parseMembers fuel rest3).map fun q => ((pk.1, pv.1) :: q.1, q.2)
                  | '\x7d' :: rest3 => some ([(pk.1, pv.1)], rest3)
                  | _ => none
            | _ => none
      | _ => none

end

/-- Model of `simplejson.loads` (as called through `resp.json()`): the
parsed value when the whole input is one JSON document, `none` when
decoding fails (Python raises `JSONDecodeError`). -/
def Json.loads (s : String) : Option Json :=
  match parseVal (s.length + 2) s.toList with
  | some (j, rest) => if skipWs rest = [] then some j else none
  | none => none

/-- UTF-8 encoding of one character, modelling Python's `str.encode('utf8')`
per code point. -/
def utf8EncodeChar (c : Char) : List UInt8 :=
  let n := c.toNat
  if n < 0x80 then [UInt8.ofNat n]
  else if n < 0x800 then
    [UInt8.ofNat (0xC0 ||| (n >>> 6)), UInt8.ofNat (0x80 ||| (n &&& 0x3F))]
  else if n < 0x10000 then
    [UInt8.ofNat (0xE0 ||| (n >>> 12)), UInt8.ofNat (0x80 ||| ((n >>> 6) &&& 0x3F)),
     UInt8.ofNat (0x80 ||| (n &&& 0x3F))]
  else
    [UInt8.ofNat (0xF0 ||| (n >>> 18)), UInt8.ofNat (0x80 ||| ((n >>> 12) &&& 0x3F)),
     UInt8.ofNat (0x80 ||| ((n >>> 6) &&& 0x3F)), UInt8.ofNat (0x80 ||| (n &&& 0x3F))]

/-- UTF-8 bytes of a string, modelling Python's `str.encode('utf8')`. -/
def utf8Bytes (s : String) : List UInt8 :=
  s.toList.flatMap utf8EncodeChar

/-- Split of a character list at every occurrence of `sep`, modelling
Python's `str.split(sep)`: the result is never empty and never drops
empty pieces. -/
def splitOnChar (sep : Char) : List Char → List (List Char)
  | [] => [[]]
  | c :: cs =>
      match splitOnChar sep cs with
      | h :: t => if c = sep then [] :: h :: t else (c :: h) :: t
      | [] => [[c]]

/-- Pieces joined back with `'/'` between them. -/
def joinSlash : List (List Char) → List Char
  | [] => []
  | [x] => x
  | x :: y :: rest => x ++ '/' :: joinSlash (y :: rest)

/-- Resolution of `.` and `..` path segments against an accumulator of the
segments already kept (in reverse), modelling the dot-segment resolution
`urllib.parse.urljoin` performs. A trailing `.` or `..` leaves a trailing
slash; `..` never pops the leading (root) segment. -/
def resolveSegs : List (List Char) → List (List Char) → List (List Char)
  | acc, [] => acc.reverse
  | acc, seg :: rest =>
      if seg = ['.'] then
        (if rest = [] then ([] :: acc).reverse else resolveSegs acc rest)
      else if seg = ['.', '.'] then
        (let acc2 : List (List Char) :=
          match acc with
          | [] => []
          | [x] => [x]
          | _ :: xs => xs
        if rest = [] then ([] :: acc2).reverse else resolveSegs acc2 rest)
      else resolveSegs (seg :: acc) rest

/-- Dot-segment resolution on a whole path string. -/
def removeDotSegments (p : String) : String :=
  if p = "" then ""
  else String.mk (joinSlash (resolveSegs [] (splitOnChar '/' p.toList)))

/-- Valid scheme characters after the first (RFC 3986, as
`urllib.parse` accepts them). -/
def isSchemeChar (c : Char) : Bool :=
  c.isAlpha || c.isDigit || c = '+' || c = '-' || c = '.'

/-- Characters before a `':'` when they form a URL scheme: the scheme's
characters and the characters after the colon. -/
def findScheme : List Char → List Char → Option (List Char × List Char)
  | _, [] => none
  | acc, c :: cs =>
      if c = ':' then some (acc.reverse, cs)
      else if isSchemeChar c then findScheme (c :: acc) cs
      else none

/-- Scheme split modelling `urllib.parse`: a scheme must be non-empty,
start with a letter and be followed by `':'`; it is lowercased. Anything
else leaves the input untouched with an empty scheme. -/
def splitScheme (s : String) : String × String :=
  match findScheme [] s.toList with
  | some (sch, rest) =>
      match sch with
      | [] => ("", s)
      | c :: _ =>
          if c.isAlpha then (String.mk (sch.map Char.toLower), String.mk rest)
          else ("", s)
  | none => ("", s)

/-- Network-location characters up to the first `'/'`, `'?'` or `'#'`. -/
def takeNetloc : List Char → List Char × List Char
  | [] => ([], [])
  | c :: cs =>
      if c = '/' ∨ c = '?' ∨ c = '#' then ([], c :: cs)
      else
        match takeNetloc cs with
        | (n, p) => (c :: n, p)

/-- Leading-slash test on a string (Python's `str.startswith`). -/
def strStartsWith (s pre : String) : Bool :=
  pre.toList.isPrefixOf s.toList

/-- The scheme, network location and path of a URL. -/
structure UrlSplit where
  scheme : String
  netloc : String
  path : String
deriving DecidableEq

/-- Model of `urllib.parse.urlparse` restricted to scheme/netloc/path URLs
(no params, query or fragment), which is all the URLs this client
handles. -/
def urlparse (s : String) : UrlSplit :=
  match splitScheme s with
  | (scheme, rest) =>
    match rest.toList with
    | '/' :: '/' :: tail =>
        match takeNetloc tail with
        | (n, p) => ⟨scheme, String.mk n, String.mk p⟩
    | other => ⟨scheme, "", String.mk other⟩

/-- Reassembly of a split URL, modelling `urllib.parse.urlunsplit` for
scheme/netloc/path URLs. -/
def urlunsplit (scheme netloc path : String) : String :=
  if netloc = "" then (if scheme = "" then path else scheme ++ ":" ++ path)
  else
    (if scheme = "" then "//" ++ netloc ++ path
     else scheme ++ "://" ++ netloc ++ path)

/-- Merge of a relative path with the base's path (RFC 3986 section 5.3,
as `urljoin` performs it): everything up to and including the base path's
last slash, then the reference. -/
def mergePath (bnetloc bpath upath : String) : String :=
  if bnetloc ≠ "" ∧ bpath = "" then "/" ++ upath
  else
    String.mk ((bpath.toList.reverse.dropWhile (fun c => ¬ c = '/')).reverse)
      ++ upath

/-- Model of `urllib.parse.urljoin` on scheme/netloc/path URLs: a
reference with its own scheme wins outright; a reference with a network
location keeps it; an absolute-path reference replaces the base's path; a
relative path is merged against the base's path; dot segments are
resolved. -/
def urljoin (base url : String) : String :=
  match urlparse base, urlparse url with
  | ⟨bs, bn, bp⟩, ⟨us, un, up⟩ =>
    if us ≠ "" ∧ us ≠ bs then url
    else
      let s := if us = "" then bs else us
      if un ≠ "" then urlunsplit s un (removeDotSegments up)
      else if up = "" then urlunsplit s bn bp
      else if strStartsWith up "/" then urlunsplit s bn (removeDotSegments up)
      else urlunsplit s bn (removeDotSegments (mergePath bn bp up))

/-- Setting a key in a Python `dict` seen as an insertion-ordered
association list: an existing key keeps its position and gets the new
value, a new key is appended. This is the semantics of
`\x7b**old, key: value\x7d` for each added key. -/
def dictSet : List (String × String) → String → String → List (String × String)
  | [], k, v => [(k, v)]
  | (k1, v1) :: rest, k, v =>
      if k1 = k then (k1, v) :: rest else (k1, v1) :: dictSet rest k v

/-- Python exceptions the embedded code can raise. -/
inductive PyError where
  | nameError (name : String)
  | typeError (msg : String)
  | valueError (msg : String)
deriving DecidableEq

/-- Python values needed to evaluate the registry-default expression:
strings and lists of values. -/
inductive PyVal where
  | str (s : String)
  | list (xs : List PyVal)

/-- Python's `+` on these values: string concatenation, list
concatenation; adding a `str` to a `list` raises `TypeError`, exactly as
CPython reports it. -/
def pyAdd : PyVal → PyVal → Except PyError PyVal
  | .str a, .str b => .ok (.str (a ++ b))
  | .list a, .list b => .ok (.list (a ++ b))
  | .list _, .str _ =>
      .error (.typeError "can only concatenate list (not \"str\") to list")
  | .str _, .list _ => .error (.typeError "can only concatenate str (not \"list\") to str")

/-- An HTTP request as handed to `requests.request` / `requests.post`:
method, full URL, header mapping and optional byte body. -/
structure HttpRequest where
  method : String
  url : String
  headers : List (String × String)
  data : Option (List UInt8)

/-- An HTTP response as the client observes it: its decoded text
(`resp.text`). `resp.json()` is `Json.loads` of the text and
`resp.content` its UTF-8 bytes. -/
structure HttpResponse where
  text : String

/-- Iteration over a `requests.Response` yields the content in chunks of
128 bytes (`Response.__iter__` delegates to `iter_content(128)`). -/
def iterContentAux : Nat → List UInt8 → List (List UInt8)
  | 0, _ => []
  | _, [] => []
  | Nat.succ fuel, b :: bs => (b :: bs.take 127) :: iterContentAux fuel (bs.drop 127)

/-- The byte chunks that iterating a response yields. -/
def iterContent (r : HttpResponse) : List (List UInt8) :=
  iterContentAux (utf8Bytes r.text).length (utf8Bytes r.text)

/-- Python 3 equality between a `str` and a `bytes` object: always false
(`str.__eq__` and `bytes.__eq__` both return `NotImplemented` across the
types, so `==` falls back to identity). -/
def pyStrEqBytes (_ : String) (_ : List UInt8) : Bool :=
  false

/-- Membership `s in resp` on a `requests.Response`: the object defines no
`__contains__`, so Python falls back to iterating it (byte chunks of the
content) and comparing each chunk to `s` with `==`. A `str` never equals
a `bytes` chunk, so the test is false for every response. -/
def responseContains (r : HttpResponse) (s : String) : Bool :=
  (iterContent r).any fun chunk => pyStrEqBytes s chunk

/-- The container-engine session handle `dockerutils.DockerClient`
(an external collaborator, not part of this repository's core): it is
specified only by the constructor arguments it stores. -/
structure DockerClient where
  auth : String × String
  engine : String
  registry : String

/-- The client's connection state: the fields of `GalaxyClient`
(`galaxy_root`, `headers`, `token`, `docker_client`). -/
structure GalaxyClient where
  galaxy_root : String
  headers : List (String × String)
  token : String
  docker_client : Option DockerClient

/-- What constructing a client observably does: the network requests it
issued, the lines it printed to standard error, and the constructed
client or the exception construction raised. -/
structure InitOutcome where
  requests : List HttpRequest
  stderrOut : List String
  result : Except PyError GalaxyClient

/-- Embedding of `GalaxyClient.__init__`. With `auth=None` the body only
stores `galaxy_root` and an empty header dict: no request is issued and
no header is set. With credentials, the body binds `username, password =
auth` but then evaluates `requests.post(galaxy_root + "v3/auth/token/",
auth=(user, password))`: `user` is bound nowhere in the function or the
module, so evaluating the basic-auth argument tuple raises
`NameError` before the request is issued, and the token fetch, the
header update and the container-engine block after it are unreachable. -/
def GalaxyClient.init (galaxy_root : String) (auth : Option (String × String))
    (container_engine : Option String) (container_registry : Option String)
    (net : HttpRequest → HttpResponse) : InitOutcome :=
  match auth with
  | none => ⟨[], [], .ok ⟨galaxy_root, [], "", none⟩⟩
  | some _ => ⟨[], [], .error (.nameError "user")⟩

/-- Embedding of the registry-default expression in `__init__`:
`urlparse(self.galaxy_root).netloc.split(":") + ":5001"`.
`netloc.split(":")` is a Python list of strings, and adding the string
`":5001"` to a list raises `TypeError`; the expression can never produce
a registry host. -/
def defaultRegistryExpr (galaxy_root : String) : Except PyError PyVal :=
  pyAdd
    (.list (((splitOnChar ':' (urlparse galaxy_root).netloc.toList).map
      (fun cs => PyVal.str (String.mk cs)))))
    (.str ":5001")

/-- What one call through the client's HTTP dispatch observably does: the
request it issued, the lines it printed to standard output, and the
parsed JSON it returned or the exception it raised. -/
structure HttpOutcome where
  request : HttpRequest
  printed : List String
  result : Except PyError Json

/-- The request `_http` hands to `requests.request`: the URL is
`urljoin(self.galaxy_root, path)` and the headers are the `headers`
keyword argument when given, else the stored `self.headers`. -/
def GalaxyClient.buildRequest (c : GalaxyClient) (method path : String)
    (headersArg : Option (List (String × String)))
    (dataArg : Option (List UInt8)) : HttpRequest :=
  ⟨method, urljoin c.galaxy_root path, headersArg.getD c.headers, dataArg⟩

/-- Embedding of `_http`'s response handling: the lines it prints and the
value it returns or the exception it raises. `resp.json()` failing to
decode prints the raw text and raises
`ValueError("Failed to parse JSON response from API")`. The guard
`if "errors" in resp:` tests membership on the raw `Response` object
(see `responseContains`); were it ever true, the branch would evaluate
`resp["errors"]`, and a `Response` is not subscriptable, so it would
raise `TypeError` — it cannot surface an error title. Otherwise the
parsed JSON is returned. -/
def handleResp (resp : HttpResponse) : List String × Except PyError Json :=
  match Json.loads resp.text with
  | none =>
      ([resp.text], .error (.valueError "Failed to parse JSON response from API"))
  | some j =>
      if responseContains resp "errors" then
        ([], .error (.typeError "'Response' object is not subscriptable"))
      else ([], .ok j)

/-- Embedding of `GalaxyClient._http`: build the request, issue it
against the network `net`, handle the response. -/
def GalaxyClient.http (c : GalaxyClient) (net : HttpRequest → HttpResponse)
    (method path : String) (headersArg : Option (List (String × String)))
    (dataArg : Option (List UInt8)) : HttpOutcome :=
  ⟨c.buildRequest method path headersArg dataArg,
   (handleResp (net (c.buildRequest method path headersArg dataArg))).1,
   (handleResp (net (c.buildRequest method path headersArg dataArg))).2⟩

/-- A body argument to `post`/`put`: a mapping, a string, or raw bytes. -/
inductive PyBody where
  | dict (kvs : List (String × Json))
  | str (s : String)
  | bytes (b : List UInt8)

/-- The byte payload `_payload` produces: a `dict` body is serialized
with `dumps` and the resulting string — like a string body — is encoded
as UTF-8; bytes pass through. -/
def pyBodyBytes : PyBody → List UInt8
  | .dict kvs => utf8Bytes (Json.dumps (.obj kvs))
  | .str s => utf8Bytes s
  | .bytes b => b

/-- The header mapping `_payload` hands on: the dict literal
`\x7b**kwargs.pop("headers", self.headers), "Content-Type": ...,
"Content-length": str(len(body))\x7d`, i.e. the base mapping with the two
keys set, where `len(body)` is the byte length of the encoded payload. -/
def payloadHeaders (base : List (String × String)) (body : PyBody) :
    List (String × String) :=
  dictSet (dictSet base "Content-Type" "application/json;charset=utf-8")
    "Content-length" (toString (pyBodyBytes body).length)

/-- Embedding of `GalaxyClient._payload`: encode the body, build the
fresh header mapping, and delegate to `_http` with the headers and data
keyword arguments set. -/
def GalaxyClient.payload (c : GalaxyClient) (net : HttpRequest → HttpResponse)
    (method path : String) (body : PyBody)
    (headersArg : Option (List (String × String))) : HttpOutcome :=
  c.http net method path (some (payloadHeaders (headersArg.getD c.headers) body))
    (some (pyBodyBytes body))

/-- Embedding of `GalaxyClient.get`: `_http` with method `"get"`. -/
def GalaxyClient.get (c : GalaxyClient) (net : HttpRequest → HttpResponse)
    (path : String) (headersArg : Option (List (String × String))) : HttpOutcome :=
  c.http net "get" path headersArg none

/-- Embedding of `GalaxyClient.post`: `_payload` with method `"post"`. -/
def GalaxyClient.post (c : GalaxyClient) (net : HttpRequest → HttpResponse)
    (path : String) (body : PyBody)
    (headersArg : Option (List (String × String))) : HttpOutcome :=
  c.payload net "post" path body headersArg

/-- Embedding of `GalaxyClient.put`: `_payload` with method `"put"`. -/
def GalaxyClient.put (c : GalaxyClient) (net : HttpRequest → HttpResponse)
    (path : String) (body : PyBody)
    (headersArg : Option (List (String × String))) : HttpOutcome :=
  c.payload net "put" path body headersArg

/-- State-passing form of `get`: the method bodies of `_http` and `get`
assign no attribute of `self` and mutate no stored object (the fresh
header dict in `_payload` is a new literal), so the state-passing
translation returns the receiver's fields unchanged next to the
outcome. -/
def GalaxyClient.getS (c : GalaxyClient) (net : HttpRequest → HttpResponse)
    (path : String) (headersArg : Option (List (String × String))) :
    GalaxyClient × HttpOutcome :=
  (c, c.get net path headersArg)

/-- State-passing form of `post` (see `getS`). -/
def GalaxyClient.postS (c : GalaxyClient) (net : HttpRequest → HttpResponse)
    (path : String) (body : PyBody)
    (headersArg : Option (List (String × String))) : GalaxyClient × HttpOutcome :=
  (c, c.post net path body headersArg)

/-- State-passing form of `put` (see `getS`). -/
def GalaxyClient.putS (c : GalaxyClient) (net : HttpRequest → HttpResponse)
    (path : String) (body : PyBody)
    (headersArg : Option (List (String × String))) : GalaxyClient × HttpOutcome :=
  (c, c.put net path body headersArg)

/-- A network whose token endpoint answers valid JSON carrying a token. -/
def tokenOkNet : HttpRequest → HttpResponse :=
  fun _ => ⟨"\x7b\"token\": \"abc\"\x7d"⟩

/-- A network whose token endpoint answers a non-JSON error page. -/
def badTokenNet : HttpRequest → HttpResponse :=
  fun _ => ⟨"<html>server error</html>"⟩

/-- A response body that is a JSON mapping carrying an `errors` list. -/
def errBody : String :=
  "\x7b\"errors\": [\x7b\"status\": \"403\", \"code\": \"x\", \"title\": \"boom\"\x7d]\x7d"

/-- The parse of `errBody`. -/
def errJsonVal : Json :=
  .obj [("errors", .arr
    [.obj [("status", .str "403"), ("code", .str "x"), ("title", .str "boom")]])]

/-- A network answering `errBody` on every request. -/
def errNet : HttpRequest → HttpResponse :=
  fun _ => ⟨errBody⟩

/-- A network answering a non-JSON page on every request. -/
def nonJsonNet : HttpRequest → HttpResponse :=
  fun _ => ⟨"<!doctype html>"⟩

/-- A concrete unauthenticated client session. -/
def clientEx : GalaxyClient :=
  ⟨"https://galaxy.example/", [], "", none⟩

/-- A concrete client session whose base URL carries a non-trivial path,
with the headers the constructor was meant to store. -/
def clientHub : GalaxyClient :=
  ⟨"https://galaxy.example/api/hub/",
   [("Accept", "application/json"), ("Authorization", "Token abc")], "abc", none⟩

/-- Any predicate that is constantly false holds of no element. -/
theorem list_any_false (l : List (List UInt8)) :
    (l.any fun _ => false) = false := by
  induction l with
  | nil => rfl
  | cons x l ih =>
      simp only [List.any_cons, Bool.false_or]
      exact ih

/-- Setting a key in a dict makes lookup of that key yield the new value,
whether or not the key was present. -/
theorem lookup_dictSet_self (d : List (String × String)) (k v : String) :
    (dictSet d k v).lookup k = some v := by
  induction d with
  | nil => simp [dictSet, List.lookup]
  | cons p rest ih =>
      obtain ⟨k1, v1⟩ := p
      by_cases h : k1 = k
      · subst h
        simp [dictSet, List.lookup]
      · simp [dictSet, h, List.lookup, beq_false_of_ne (fun e => h e.symm), ih]

/-- Setting a key in a dict leaves lookup of every other key unchanged. -/
theorem lookup_dictSet_of_ne (d : List (String × String)) (a k v : String)
    (h : a ≠ k) : (dictSet d k v).lookup a = d.lookup a := by
  induction d with
  | nil => simp [dictSet, List.lookup, beq_false_of_ne h]
  | cons p rest ih =>
      obtain ⟨k1, v1⟩ := p
      by_cases h1 : k1 = k
      · subst h1
        simp [dictSet, List.lookup, beq_false_of_ne h]
      · by_cases h2 : a = k1
        · subst h2
          simp [dictSet, h1, List.lookup]
        · simp [dictSet, h1, List.lookup, beq_false_of_ne h2, ih]

/-- The header mapping `_payload` builds always answers `Content-Type`
with the JSON content type. -/
theorem payloadHeaders_content_type (base : List (String × String)) (body : PyBody) :
    (payloadHeaders base body).lookup "Content-Type" =
      some "application/json;charset=utf-8" := by
  unfold payloadHeaders
  rw [lookup_dictSet_of_ne _ _ _ _ (by decide)]
  exact lookup_dictSet_self _ _ _

/-- The header mapping `_payload` builds always answers `Content-length`
with the decimal byte length of the encoded payload. -/
theorem payloadHeaders_content_length (base : List (String × String)) (body : PyBody) :
    (payloadHeaders base body).lookup "Content-length" =
      some (toString (pyBodyBytes body).length) :=
  lookup_dictSet_self _ _ _

/-- C1: the claim says that constructing a client with a valid credential
pair performs a basic-auth POST to the token endpoint and, when the
endpoint answers valid JSON with a `token` field, populates the
`Authorization: Token <token>` and `Accept: application/json` headers. On
the code this fails: even against a network whose token endpoint answers
`\x7b"token": "abc"\x7d`, construction raises `NameError` — the source
reads the unbound name `user` while building the basic-auth pair — before
issuing any request, so no header is ever populated. -/
theorem C1_auth_construction_raises_name_error :
    Json.loads "\x7b\"token\": \"abc\"\x7d" = some (.obj [("token", .str "abc")]) ∧
    GalaxyClient.init "https://galaxy.example/" (some ("admin", "secret")) none none
      tokenOkNet = ⟨[], [], .error (.nameError "user")⟩ :=
  ⟨rfl, rfl⟩

/-- C2: the claim says that a response whose parsed body is a mapping
with an `errors` list makes the call raise a failure carrying the first
error's title. On the code this fails: the guard `"errors" in resp` tests
membership on the raw `Response` object, where a `str` is compared to
`bytes` chunks and never matches, so the guard is false for every
response and the parsed error mapping is returned as a successful
result. -/
theorem C2_errors_list_does_not_raise :
    (∀ r : HttpResponse, responseContains r "errors" = false) ∧
    Json.loads errBody = some errJsonVal ∧
    (GalaxyClient.http clientEx errNet "get" "v3/users/" none none).result =
      .ok errJsonVal :=
  ⟨fun r => list_any_false (iterContent r), rfl, rfl⟩

/-- C3: for every mapping body passed to `post` or `put`, the outgoing
payload is the UTF-8 encoding of the JSON serialization of the mapping,
and the fresh header mapping carries `Content-Type:
application/json;charset=utf-8` and a `Content-length` whose value is
exactly the byte length of the encoded payload (HTTP header field names
are case-insensitive; the code writes the key as `Content-length`). -/
theorem C3_payload_encoding_and_content_length (c : GalaxyClient)
    (net : HttpRequest → HttpResponse) (path : String)
    (kvs : List (String × Json)) (headersArg : Option (List (String × String))) :
    ((c.post net path (.dict kvs) headersArg).request.data =
        some (utf8Bytes (Json.dumps (.obj kvs))) ∧
      ((c.post net path (.dict kvs) headersArg).request.headers).lookup "Content-Type" =
        some "application/json;charset=utf-8" ∧
      ((c.post net path (.dict kvs) headersArg).request.headers).lookup "Content-length" =
        some (toString (utf8Bytes (Json.dumps (.obj kvs))).length)) ∧
    ((c.put net path (.dict kvs) headersArg).request.data =
        some (utf8Bytes (Json.dumps (.obj kvs))) ∧
      ((c.put net path (.dict kvs) headersArg).request.headers).lookup "Content-Type" =
        some "application/json;charset=utf-8" ∧
      ((c.put net path (.dict kvs) headersArg).request.headers).lookup "Content-length" =
        some (toString (utf8Bytes (Json.dumps (.obj kvs))).length)) :=
  ⟨⟨rfl, payloadHeaders_content_type _ _, payloadHeaders_content_length _ _⟩,
   ⟨rfl, payloadHeaders_content_type _ _, payloadHeaders_content_length _ _⟩⟩

/-- C4: `get(path)` issues its request to `urljoin(base, path)`, and under
these URL-join semantics an absolute path (one starting with `/`, with no
scheme or network location of its own and no dot segments) replaces the
base URL's path component entirely. -/
theorem C4_get_joins_url_absolute_path_replaces (c : GalaxyClient)
    (net : HttpRequest → HttpResponse) (path scheme netloc bpath : String)
    (h0 : scheme ≠ "")
    (h1 : urlparse c.galaxy_root = ⟨scheme, netloc, bpath⟩)
    (h2 : netloc ≠ "")
    (h3 : urlparse path = ⟨"", "", path⟩)
    (h4 : strStartsWith path "/" = true)
    (h5 : removeDotSegments path = path) :
    (c.get net path none).request.url = urljoin c.galaxy_root path ∧
    urljoin c.galaxy_root path = scheme ++ "://" ++ netloc ++ path := by
  constructor
  · rfl
  · have hne : path ≠ "" := by
      intro he
      rw [he] at h4
      exact absurd h4 (by decide)
    unfold urljoin
    rw [h1, h3]
    simp [urlunsplit, h0, h2, h4, h5, hne]

/-- Witness for C4 at a concrete base URL and absolute path. -/
theorem C4_get_joins_url_absolute_path_replaces_witness :
    ("https" : String) ≠ "" ∧
    urlparse clientHub.galaxy_root = ⟨"https", "galaxy.example", "/api/hub/"⟩ ∧
    ("galaxy.example" : String) ≠ "" ∧
    urlparse "/v3/users/" = ⟨"", "", "/v3/users/"⟩ ∧
    strStartsWith "/v3/users/" "/" = true ∧
    removeDotSegments "/v3/users/" = "/v3/users/" ∧
    ((clientHub.get tokenOkNet "/v3/users/" none).request.url =
        urljoin clientHub.galaxy_root "/v3/users/" ∧
      urljoin clientHub.galaxy_root "/v3/users/" =
        "https" ++ "://" ++ "galaxy.example" ++ "/v3/users/") :=
  ⟨by decide, rfl, by decide, rfl, rfl, rfl,
   C4_get_joins_url_absolute_path_replaces clientHub tokenOkNet "/v3/users/"
     "https" "galaxy.example" "/api/hub/" (by decide) rfl (by decide) rfl rfl rfl⟩

/-- C5: whenever the response body of a call through the HTTP dispatch
(`_http`, shared by `get`, `post` and `put`) is not valid JSON, the call
prints the raw body and raises
`ValueError("Failed to parse JSON response from API")`; no partially
parsed value is returned. -/
theorem C5_nonjson_response_raises_value_error (c : GalaxyClient)
    (net : HttpRequest → HttpResponse) (method path : String)
    (headersArg : Option (List (String × String))) (dataArg : Option (List UInt8))
    (h : Json.loads (net (c.buildRequest method path headersArg dataArg)).text = none) :
    c.http net method path headersArg dataArg =
      ⟨c.buildRequest method path headersArg dataArg,
       [(net (c.buildRequest method path headersArg dataArg)).text],
       .error (.valueError "Failed to parse JSON response from API")⟩ := by
  unfold GalaxyClient.http handleResp
  rw [h]

/-- Witness for C5 at a concrete client and a network answering an HTML
page. -/
theorem C5_nonjson_response_raises_value_error_witness :
    Json.loads (nonJsonNet (clientEx.buildRequest "get" "v3/users/" none none)).text =
      none ∧
    clientEx.http nonJsonNet "get" "v3/users/" none none =
      ⟨clientEx.buildRequest "get" "v3/users/" none none, ["<!doctype html>"],
       .error (.valueError "Failed to parse JSON response from API")⟩ :=
  ⟨rfl,
   C5_nonjson_response_raises_value_error clientEx nonJsonNet "get" "v3/users/"
     none none rfl⟩

/-- C6: the claim says that when the token-exchange response is not valid
JSON, construction does not raise, reports the failure to standard error
and returns a degraded client. On the code this fails: construction with
credentials raises `NameError` (the unbound name `user`) before the token
request is even issued, so neither the degraded client nor the stderr
report is ever produced. -/
theorem C6_construction_raises_before_token_parse :
    Json.loads "<html>server error</html>" = none ∧
    GalaxyClient.init "https://hub.example/" (some ("u", "p")) none none badTokenNet =
      ⟨[], [], .error (.nameError "user")⟩ :=
  ⟨rfl, rfl⟩

/-- C7: the claim says that supplying a container-engine option with no
registry derives the registry host from the base URL's network location
with port 5001 and initializes a container-engine session. On the code
this fails twice over: construction with credentials raises `NameError`
(the unbound name `user`) before the container-engine block, and the
registry-default expression itself,
`urlparse(galaxy_root).netloc.split(":") + ":5001"`, adds a string to a
list and so would raise `TypeError` rather than produce a host. -/
theorem C7_container_engine_defaults_raise :
    GalaxyClient.init "https://galaxy.example/" (some ("u", "p")) (some "podman") none
      tokenOkNet = ⟨[], [], .error (.nameError "user")⟩ ∧
    defaultRegistryExpr "https://galaxy.example/" =
      .error (.typeError "can only concatenate list (not \"str\") to list") :=
  ⟨rfl, rfl⟩

/-- C8: no call to `get`, `post` or `put` changes any field of the client
(the methods assign no attribute), and the Content-Type/Content-length
headers a mutating call adds go into a fresh mapping derived from the
stored (or overriding) headers, leaving the stored header mapping
untouched. -/
theorem C8_client_state_unchanged_by_calls (c : GalaxyClient)
    (net : HttpRequest → HttpResponse) (path : String) (body : PyBody)
    (headersArg : Option (List (String × String))) :
    (c.getS net path headersArg).1 = c ∧
    (c.postS net path body headersArg).1 = c ∧
    (c.putS net path body headersArg).1 = c ∧
    (c.postS net path body headersArg).2.request.headers =
      payloadHeaders (headersArg.getD c.headers) body ∧
    (c.putS net path body headersArg).2.request.headers =
      payloadHeaders (headersArg.getD c.headers) body ∧
    (c.getS net path headersArg).1.headers = c.headers :=
  ⟨rfl, rfl, rfl, rfl, rfl, rfl⟩

/-- C9: constructing with `auth=None` issues no token-exchange request
and stores an empty header mapping, so calls that do not override headers
send no `Accept` and no `Authorization` header: `get` sends the empty
mapping, and `post`/`put` send only the two payload headers. -/
theorem C9_no_auth_empty_headers (root path : String)
    (container_engine container_registry : Option String)
    (net : HttpRequest → HttpResponse) (body : PyBody) :
    GalaxyClient.init root none container_engine container_registry net =
      ⟨[], [], .ok ⟨root, [], "", none⟩⟩ ∧
    ((⟨root, [], "", none⟩ : GalaxyClient).get net path none).request.headers = [] ∧
    (((⟨root, [], "", none⟩ : GalaxyClient).post net path body none).request.headers).lookup
      "Accept" = none ∧
    (((⟨root, [], "", none⟩ : GalaxyClient).post net path body none).request.headers).lookup
      "Authorization" = none ∧
    (((⟨root, [], "", none⟩ : GalaxyClient).put net path body none).request.headers).lookup
      "Accept" = none ∧
    (((⟨root, [], "", none⟩ : GalaxyClient).put net path body none).request.headers).lookup
      "Authorization" = none :=
  ⟨rfl, rfl, rfl, rfl, rfl, rfl⟩

/-- C10: the claim says that when the token-exchange response fails to
parse, the client still carries an `Authorization` header equal to
`Token ` followed by the empty token. On the code this fails: every
construction with credentials raises `NameError` (the unbound name
`user`) before the header-population lines run, so no client — and hence
no `Authorization` header at all — is ever produced. -/
theorem C10_no_authorization_header_on_token_parse_failure :
    GalaxyClient.init "https://galaxy.example/api/" (some ("alice", "pw")) none none
      badTokenNet = ⟨[], [], .error (.nameError "user")⟩ ∧
    (∀ c : GalaxyClient,
      GalaxyClient.init "https://galaxy.example/api/" (some ("alice", "pw")) none none
        badTokenNet ≠ ⟨[], [], .ok c⟩) := by
  refine ⟨rfl, ?_⟩
  intro c h
  simp [GalaxyClient.init] at h

end Galaxykit
